import Mathlib

/-!
# Verification of the `soon-migrate` migration tool

A shallow embedding, in Lean 4, of the core logic of the `soon-migrate`
repository (`src/migration.rs`, `src/oracle.rs`): the cluster-to-endpoint
mapping, the in-memory `Anchor.toml` rewrite, the oracle pattern scanner,
the detection merger, the report generator, and the file-level effects of
`run_migration` / `restore_backup` over an explicit file-system state.

Rust strings are modelled as Lean `String`, `str::contains` as substring
containment over the character list, `str::to_lowercase` as
`String.toLower`, `toml::Value` as an inductive with tables as ordered
association lists (keys unique in well-formed TOML; lookups and updates act
on the first occurrence), and the file system as an association list from
path to contents.  The external TOML parser and serializer are parameters
of `run_migration`, since their code is not part of this repository.
-/

namespace SoonMigrate

/-- `pat` occurs as a contiguous run inside `l`. -/
def containsSeq (pat : List Char) : List Char → Bool
  | [] => pat.isEmpty
  | c :: rest => pat.isPrefixOf (c :: rest) || containsSeq pat rest

/-- `str::contains`: `pat` occurs as a contiguous substring of `s`. -/
def strContains (s pat : String) : Bool :=
  containsSeq pat.data s.data

/-- `str::to_lowercase`, character by character (the sources only compare
ASCII cluster names and ASCII patterns). -/
def lowerStr (s : String) : String :=
  ⟨s.data.map Char.toLower⟩

/-- `migration.rs::map_cluster_to_soon`: case-insensitive match of the
cluster name to the fixed SOON endpoint, defaulting to the devnet URL. -/
def map_cluster_to_soon (cluster : String) : String :=
  if lowerStr cluster = "mainnet-beta" ∨ lowerStr cluster = "mainnet" then
    "https://rpc.mainnet.soo.network/rpc"
  else if lowerStr cluster = "testnet" then
    "https://rpc.testnet.soo.network/rpc"
  else
    "https://rpc.devnet.soo.network/rpc"

/-- The mainnet endpoint URL. -/
def mainnetUrl : String := "https://rpc.mainnet.soo.network/rpc"

/-- The testnet endpoint URL. -/
def testnetUrl : String := "https://rpc.testnet.soo.network/rpc"

/-- The devnet endpoint URL (also the default fallback). -/
def devnetUrl : String := "https://rpc.devnet.soo.network/rpc"

/-! ## The TOML value model -/

/-- `toml::Value`, with tables as ordered association lists. -/
inductive TomlValue where
  | str : String → TomlValue
  | int : Int → TomlValue
  | boolean : Bool → TomlValue
  | arr : List TomlValue → TomlValue
  | table : List (String × TomlValue) → TomlValue
deriving Repr

/-! Association-list helpers shared by the TOML tables and the
file-system model.  Well-formed TOML tables have unique keys; all
operations act on the first occurrence of a key. -/

/-- Value at the first occurrence of key `k`. -/
def lookupAssoc {α : Type} : List (String × α) → String → Option α
  | [], _ => none
  | (k', v) :: rest, k => if k' = k then some v else lookupAssoc rest k

/-- Map-style insert: replace the value at the first occurrence of `k`,
or append `(k, v)` when `k` is absent. -/
def updateAssoc {α : Type} (l : List (String × α)) (k : String) (v : α) :
    List (String × α) :=
  match l with
  | [] => [(k, v)]
  | (k', v') :: rest =>
      if k' = k then (k, v) :: rest else (k', v') :: updateAssoc rest k v

/-- Apply `f` to the value at the first occurrence of `k` (a `get_mut`
followed by a mutation); a list without `k` is unchanged. -/
def modifyAssoc {α : Type} (l : List (String × α)) (k : String) (f : α → α) :
    List (String × α) :=
  match l with
  | [] => []
  | (k', v') :: rest =>
      if k' = k then (k', f v') :: rest else (k', v') :: modifyAssoc rest k f

/-- Map-style remove: the value at the first occurrence of `k`, and the
list without that entry. -/
def removeAssoc {α : Type} (l : List (String × α)) (k : String) :
    Option α × List (String × α) :=
  match l with
  | [] => (none, [])
  | (k', v') :: rest =>
      if k' = k then (some v', rest)
      else
        let r := removeAssoc rest k
        (r.1, (k', v') :: r.2)

/-- `toml::Value::get`: table lookup, `none` on a non-table. -/
def TomlValue.get (t : TomlValue) (k : String) : Option TomlValue :=
  match t with
  | .table entries => lookupAssoc entries k
  | _ => none

/-- `toml::Value::as_str`. -/
def TomlValue.as_str : TomlValue → Option String
  | .str s => some s
  | _ => none

/-! ## The in-memory `Anchor.toml` rewrite (`run_migration`, middle part) -/

/-- Step one of the rewrite (migration.rs lines 124–141): replace
`provider.cluster` by the mapped SOON endpoint whenever the provider table
holds a string-valued `cluster`; report whether a change was made. -/
def updateCluster (t : TomlValue) : TomlValue × Bool :=
  match t with
  | .table entries =>
    match lookupAssoc entries "provider" with
    | some (.table ptab) =>
      match (lookupAssoc ptab "cluster").bind TomlValue.as_str with
      | some cluster =>
          let soon_rpc := map_cluster_to_soon cluster
          (.table (modifyAssoc entries "provider" (fun p =>
            match p with
            | .table pt => .table (updateAssoc pt "cluster" (.str soon_rpc))
            | other => other)), true)
      | none => (t, false)
    | _ => (t, false)
  | _ => (t, false)

/-- The network name chosen from the (already updated) cluster value
(migration.rs lines 144–160): substring match on "mainnet" / "testnet",
else "devnet". -/
def networkName (t : TomlValue) : String :=
  match t.get "provider" with
  | some provider =>
    match (provider.get "cluster").bind TomlValue.as_str with
    | some cluster =>
        if strContains cluster "mainnet" then "mainnet"
        else if strContains cluster "testnet" then "testnet"
        else "devnet"
    | none => "devnet"
  | none => "devnet"

/-- Step two of the rewrite (migration.rs lines 163–173): move
`programs.localnet` to `programs.<network>`; report whether a change was
made. -/
def renameLocalnet (t : TomlValue) (net : String) : TomlValue × Bool :=
  match t with
  | .table entries =>
    match lookupAssoc entries "programs" with
    | some (.table ptab) =>
      match removeAssoc ptab "localnet" with
      | (some localnet, rest) =>
          (.table (modifyAssoc entries "programs" (fun _ =>
            .table (updateAssoc rest net localnet))), true)
      | (none, _) => (t, false)
    | _ => (t, false)
  | _ => (t, false)

/-- The full in-memory `Anchor.toml` transformation of `run_migration`
(lines 121–173): cluster update, then the `programs.localnet` rename keyed
on the updated cluster value; the flag is the `config_changed` variable. -/
def migrate_toml (t : TomlValue) : TomlValue × Bool :=
  let r1 := updateCluster t
  let net := networkName r1.1
  let r2 := renameLocalnet r1.1 net
  (r2.1, r1.2 || r2.2)

/-- The `provider.cluster` string of a config, as `run_migration` reads it. -/
def getCluster (t : TomlValue) : Option String :=
  (t.get "provider").bind (fun p => (p.get "cluster").bind TomlValue.as_str)

/-! ## Association-list lemmas -/

theorem lookupAssoc_modify_self {α : Type} (l : List (String × α)) (k : String)
    (f : α → α) : lookupAssoc (modifyAssoc l k f) k = (lookupAssoc l k).map f := by
  induction l with
  | nil => rfl
  | cons e rest ih =>
      obtain ⟨k', v⟩ := e
      by_cases h : k' = k <;> simp [modifyAssoc, lookupAssoc, h, ih]

theorem lookupAssoc_modify_ne {α : Type} (l : List (String × α)) (k k' : String)
    (f : α → α) (h : k' ≠ k) :
    lookupAssoc (modifyAssoc l k f) k' = lookupAssoc l k' := by
  induction l with
  | nil => rfl
  | cons e rest ih =>
      obtain ⟨a, v⟩ := e
      by_cases ha : a = k
      · subst ha
        simp [modifyAssoc, lookupAssoc, Ne.symm h]
      · by_cases ha' : a = k' <;> simp [modifyAssoc, lookupAssoc, ha, ha', ih, h]

theorem lookupAssoc_update_self {α : Type} (l : List (String × α)) (k : String)
    (v : α) : lookupAssoc (updateAssoc l k v) k = some v := by
  induction l with
  | nil => simp [updateAssoc, lookupAssoc]
  | cons e rest ih =>
      obtain ⟨a, w⟩ := e
      by_cases ha : a = k <;> simp [updateAssoc, lookupAssoc, ha, ih]

theorem lookupAssoc_update_ne {α : Type} (l : List (String × α)) (k k' : String)
    (v : α) (h : k' ≠ k) :
    lookupAssoc (updateAssoc l k v) k' = lookupAssoc l k' := by
  induction l with
  | nil => simp [updateAssoc, lookupAssoc, Ne.symm h]
  | cons e rest ih =>
      obtain ⟨a, w⟩ := e
      by_cases ha : a = k
      · subst ha
        simp [updateAssoc, lookupAssoc, Ne.symm h]
      · by_cases ha' : a = k' <;> simp [updateAssoc, lookupAssoc, ha, ha', ih, h]

/-! ## The endpoint mapping (claims about `map_cluster_to_soon`) -/

theorem map_cluster_mem (s : String) :
    map_cluster_to_soon s = mainnetUrl ∨ map_cluster_to_soon s = testnetUrl ∨
      map_cluster_to_soon s = devnetUrl := by
  unfold map_cluster_to_soon
  split
  · exact Or.inl rfl
  · split
    · exact Or.inr (Or.inl rfl)
    · exact Or.inr (Or.inr rfl)

theorem map_cluster_map_cluster (s : String) :
    map_cluster_to_soon (map_cluster_to_soon s) = devnetUrl := by
  rcases map_cluster_mem s with h | h | h <;> rw [h] <;> rfl

/-- C1: for every cluster string, compared case-insensitively,
`map_cluster_to_soon` returns one of the three fixed endpoint URLs:
"mainnet-beta" and "mainnet" map to the mainnet endpoint, "testnet" to the
testnet endpoint, and every other input (so also "devnet") falls to the
default devnet endpoint. -/
theorem map_cluster_to_soon_three_endpoints (s : String) :
    (map_cluster_to_soon s = mainnetUrl ∨ map_cluster_to_soon s = testnetUrl ∨
      map_cluster_to_soon s = devnetUrl) ∧
    ((lowerStr s = "mainnet-beta" ∨ lowerStr s = "mainnet") →
      map_cluster_to_soon s = mainnetUrl) ∧
    (lowerStr s = "testnet" → map_cluster_to_soon s = testnetUrl) ∧
    (lowerStr s ≠ "mainnet-beta" → lowerStr s ≠ "mainnet" → lowerStr s ≠ "testnet" →
      map_cluster_to_soon s = devnetUrl) := by
  refine ⟨map_cluster_mem s, fun h => ?_, fun h => ?_, fun h1 h2 h3 => ?_⟩
  · unfold map_cluster_to_soon
    rw [if_pos h]
    rfl
  · have hne : ¬(lowerStr s = "mainnet-beta" ∨ lowerStr s = "mainnet") := by
      rintro (h' | h') <;> rw [h] at h' <;> exact absurd h' (by decide)
    unfold map_cluster_to_soon
    rw [if_neg hne, if_pos h]
    rfl
  · have hne : ¬(lowerStr s = "mainnet-beta" ∨ lowerStr s = "mainnet") := by
      rintro (h' | h') <;> contradiction
    unfold map_cluster_to_soon
    rw [if_neg hne, if_neg h3]
    rfl

/-! ## Idempotence of the rewrite on the cluster field (claim C2) -/

theorem getCluster_renameLocalnet (t : TomlValue) (net : String) :
    getCluster (renameLocalnet t net).1 = getCluster t := by
  unfold renameLocalnet
  repeat' split
  all_goals
    first
      | rfl
      | (simp only [getCluster, TomlValue.get]
         rw [lookupAssoc_modify_ne _ _ _ _ (by decide)])

theorem getCluster_migrate {t : TomlValue} {s : String}
    (h : getCluster t = some s) :
    getCluster (migrate_toml t).1 = some (map_cluster_to_soon s) := by
  unfold migrate_toml
  rw [getCluster_renameLocalnet]
  cases t with
  | table entries =>
      simp only [getCluster, TomlValue.get] at h
      cases hp : lookupAssoc entries "provider" with
      | none => rw [hp] at h; exact absurd h (by simp)
      | some p =>
          rw [hp] at h
          cases p with
          | table ptab =>
              simp only [Option.some_bind, TomlValue.get] at h
              cases hc : lookupAssoc ptab "cluster" with
              | none => rw [hc] at h; exact absurd h (by simp)
              | some cv =>
                  rw [hc] at h
                  cases cv with
                  | str c =>
                      simp only [Option.some_bind, TomlValue.as_str,
                        Option.some_inj] at h
                      subst h
                      simp only [updateCluster, hp, hc, Option.some_bind,
                        TomlValue.as_str, getCluster, TomlValue.get,
                        lookupAssoc_modify_self, Option.map_some']
                      rw [lookupAssoc_update_self]
                      rfl
                  | int i => simp [TomlValue.as_str] at h
                  | boolean b => simp [TomlValue.as_str] at h
                  | arr l => simp [TomlValue.as_str] at h
                  | table es => simp [TomlValue.as_str] at h
          | str s' => simp [TomlValue.get] at h
          | int i => simp [TomlValue.get] at h
          | boolean b => simp [TomlValue.get] at h
          | arr l => simp [TomlValue.get] at h
  | str s' => simp [getCluster, TomlValue.get] at h
  | int i => simp [getCluster, TomlValue.get] at h
  | boolean b => simp [getCluster, TomlValue.get] at h
  | arr l => simp [getCluster, TomlValue.get] at h

/-- A sample parsed `Anchor.toml` whose provider cluster is "mainnet". -/
def sampleMainnetToml : TomlValue :=
  .table [("provider", .table [("cluster", .str "mainnet"),
            ("wallet", .str "~/.config/solana/id.json")]),
          ("programs", .table [("localnet",
            .str "EtQdsPNDckBhME3gRjcj9Z4Z9tGEYAoHjWKv7aHJgBua")])]

/-- C2 counterexample: starting from the cluster "mainnet", the first run
rewrites the cluster to the mainnet endpoint, but the second run re-maps
that URL to the default devnet endpoint, so the endpoint field after two
runs differs from what a single run produced. -/
theorem migrate_twice_changes_mainnet_cluster :
    getCluster (migrate_toml sampleMainnetToml).1 = some mainnetUrl ∧
    getCluster (migrate_toml (migrate_toml sampleMainnetToml).1).1 =
      some devnetUrl ∧
    getCluster (migrate_toml (migrate_toml sampleMainnetToml).1).1 ≠
      getCluster (migrate_toml sampleMainnetToml).1 := by
  refine ⟨rfl, rfl, ?_⟩
  decide

/-- C2 amended: after two consecutive runs the endpoint field is always the
devnet URL (re-mapping the already-mapped URL falls to the default case),
so the second run leaves the field equal to what a single run produced
exactly when the single run already produced the devnet URL — that is, for
every initial cluster other than the mainnet and testnet spellings; for
those, the second run changes the field to the devnet URL. -/
theorem migrate_twice_cluster (t : TomlValue) (s : String)
    (h : getCluster t = some s) :
    getCluster (migrate_toml (migrate_toml t).1).1 = some devnetUrl ∧
    (getCluster (migrate_toml (migrate_toml t).1).1 =
        getCluster (migrate_toml t).1 ↔
      map_cluster_to_soon s = devnetUrl) := by
  have h1 := getCluster_migrate h
  have h2 := getCluster_migrate h1
  rw [h2, h1, map_cluster_map_cluster]
  exact ⟨rfl, by simp [eq_comm]⟩

/-- A sample parsed `Anchor.toml` whose provider cluster is "devnet". -/
def sampleDevnetToml : TomlValue :=
  .table [("provider", .table [("cluster", .str "devnet"),
            ("wallet", .str "~/.config/solana/id.json")]),
          ("programs", .table [("localnet",
            .str "EtQdsPNDckBhME3gRjcj9Z4Z9tGEYAoHjWKv7aHJgBua")])]

/-- Witness for the amended C2 at the cluster "devnet", where the second
run is indeed a no-op on the endpoint field. -/
theorem migrate_twice_cluster_witness :
    getCluster (migrate_toml (migrate_toml sampleDevnetToml).1).1 =
      some devnetUrl ∧
    (getCluster (migrate_toml (migrate_toml sampleDevnetToml).1).1 =
        getCluster (migrate_toml sampleDevnetToml).1 ↔
      map_cluster_to_soon "devnet" = devnetUrl) :=
  migrate_twice_cluster sampleDevnetToml "devnet" rfl

/-! ## The oracle detection data model (`oracle.rs`) -/

/-- `oracle.rs::OracleType`. -/
inductive OracleType where
  | Pyth | Switchboard | Chainlink | DIA | RedStone | APRO | Unknown
deriving DecidableEq, BEq, Repr

/-- `oracle.rs::ConfidenceLevel`. -/
inductive ConfidenceLevel where
  | High | Medium | Low
deriving DecidableEq, BEq, Repr

/-- `oracle.rs::DetectionLocation`. -/
structure DetectionLocation where
  file_path : String
  line_number : Option Nat
  pattern_matched : String
  context : String
deriving DecidableEq, BEq, Repr

/-- `oracle.rs::OracleDetection`. -/
structure OracleDetection where
  oracle_type : OracleType
  confidence : ConfidenceLevel
  locations : List DetectionLocation
  migration_suggestion : String
deriving DecidableEq, BEq, Repr

/-- `oracle.rs::OracleReport`. -/
structure OracleReport where
  detected_oracles : List OracleDetection
  migration_recommendations : List String
  apro_integration_guide : Option String
deriving Repr

/-- The `format!("\x7b:?\x7d", oracle_type)` string of the derived `Debug`
implementation: the variant name.  Used by `merge_detections` as the
grouping key and by the report lines. -/
def typeKey : OracleType → String
  | .Pyth => "Pyth"
  | .Switchboard => "Switchboard"
  | .Chainlink => "Chainlink"
  | .DIA => "DIA"
  | .RedStone => "RedStone"
  | .APRO => "APRO"
  | .Unknown => "Unknown"

/-- The `format!("\x7b:?\x7d", confidence)` string of the derived `Debug`
implementation. -/
def confKey : ConfidenceLevel → String
  | .High => "High"
  | .Medium => "Medium"
  | .Low => "Low"

/-- Splitting a character list at every occurrence of `c`. -/
def splitOnChar (c : Char) : List Char → List (List Char)
  | [] => [[]]
  | a :: rest =>
      let r := splitOnChar c rest
      if a = c then [] :: r
      else
        match r with
        | [] => [[a]]
        | h :: t => (a :: h) :: t

/-- `str::lines`: split on `'\n'`, drop a final empty segment (a trailing
newline does not open a last empty line), and strip a trailing `'\r'` from
each line. -/
def rustLines (s : String) : List String :=
  let parts := splitOnChar '\n' s.data
  let parts := if parts.getLast? = some [] then parts.dropLast else parts
  parts.map (fun l =>
    if l.getLast? = some '\r' then String.mk l.dropLast else String.mk l)

/-- `oracle.rs::find_line_number`: the 1-based index of the first line
containing `pattern`, `none` when no line contains it. -/
def find_line_number (content pattern : String) : Option Nat :=
  ((rustLines content).enum.find? (fun p => strContains p.2 pattern)).map
    (fun p => p.1 + 1)

/-! ## The per-file Rust source scan (`oracle.rs::scan_rust_content`) -/

/-- The ordered Pyth pattern table. -/
def pyth_patterns : List String :=
  ["use pyth_solana_receiver_sdk", "PriceUpdateV2", "get_price_no_older_than",
   "pyth_solana_receiver_sdk::"]

/-- The ordered Switchboard pattern table. -/
def switchboard_patterns : List String :=
  ["use switchboard_v2", "use switchboard_on_demand", "AggregatorAccountData",
   "get_result", "switchboard_v2::"]

/-- The ordered Chainlink pattern table. -/
def chainlink_patterns : List String :=
  ["use chainlink_solana", "latest_round_data", "chainlink_solana::",
   "chainlink::"]

/-- The ordered DIA pattern table (weak detection). -/
def dia_patterns : List String :=
  ["CoinInfo", "// DIA", "dia oracle", "DIA Oracle"]

/-- The ordered RedStone pattern table (weak detection). -/
def redstone_patterns : List String :=
  ["redstone", "RedStone", "// RedStone", "wormhole"]

/-- The detection `scan_rust_content` emits for a Pyth pattern hit. -/
def mkPythDet (content file_path pattern : String) : OracleDetection :=
  { oracle_type := .Pyth, confidence := .High,
    locations := [{ file_path := file_path,
                    line_number := find_line_number content pattern,
                    pattern_matched := pattern,
                    context := "Rust code usage: " ++ pattern }],
    migration_suggestion :=
      "Replace Pyth price feeds with APRO oracle integration. See APRO documentation for migration guide." }

/-- The detection `scan_rust_content` emits for a Switchboard pattern hit. -/
def mkSwitchboardDet (content file_path pattern : String) : OracleDetection :=
  { oracle_type := .Switchboard, confidence := .High,
    locations := [{ file_path := file_path,
                    line_number := find_line_number content pattern,
                    pattern_matched := pattern,
                    context := "Rust code usage: " ++ pattern }],
    migration_suggestion :=
      "Replace Switchboard aggregators with APRO oracle data feeds for SOON Network compatibility." }

/-- The detection `scan_rust_content` emits for a Chainlink pattern hit. -/
def mkChainlinkDet (content file_path pattern : String) : OracleDetection :=
  { oracle_type := .Chainlink, confidence := .High,
    locations := [{ file_path := file_path,
                    line_number := find_line_number content pattern,
                    pattern_matched := pattern,
                    context := "Rust code usage: " ++ pattern }],
    migration_suggestion :=
      "Migrate Chainlink price feeds to APRO oracle for enhanced performance on SOON Network." }

/-- The detection `scan_rust_content` emits for a DIA pattern hit. -/
def mkDiaDet (content file_path pattern : String) : OracleDetection :=
  { oracle_type := .DIA, confidence := .Low,
    locations := [{ file_path := file_path,
                    line_number := find_line_number content pattern,
                    pattern_matched := pattern,
                    context := "Potential DIA usage: " ++ pattern }],
    migration_suggestion :=
      "If using DIA oracle, consider migrating to APRO for better SOON Network integration." }

/-- The detection `scan_rust_content` emits for a RedStone pattern hit. -/
def mkRedstoneDet (content file_path pattern : String) : OracleDetection :=
  { oracle_type := .RedStone, confidence := .Low,
    locations := [{ file_path := file_path,
                    line_number := find_line_number content pattern,
                    pattern_matched := pattern,
                    context := "Potential RedStone usage: " ++ pattern }],
    migration_suggestion :=
      "If using RedStone oracle, APRO provides similar RWA oracle capabilities for SOON Network." }

/-- One provider's `for pattern in patterns ... break` loop: emit one
detection for the first pattern `hit` accepts, then stop. -/
def scanLoop (hit : String → Bool) (mk : String → OracleDetection) :
    List String → List OracleDetection
  | [] => []
  | p :: rest => if hit p then [mk p] else scanLoop hit mk rest

/-- `oracle.rs::scan_rust_content` (lines 239–370): the five provider
loops in source order.  Pyth, Switchboard, Chainlink and RedStone test
`content.contains(pattern)`; only the DIA loop lowercases both sides. -/
def scan_rust_content (content file_path : String) : List OracleDetection :=
  scanLoop (fun p => strContains content p) (mkPythDet content file_path)
      pyth_patterns
    ++ scanLoop (fun p => strContains content p)
        (mkSwitchboardDet content file_path) switchboard_patterns
    ++ scanLoop (fun p => strContains content p)
        (mkChainlinkDet content file_path) chainlink_patterns
    ++ scanLoop (fun p => strContains (lowerStr content) (lowerStr p))
        (mkDiaDet content file_path) dia_patterns
    ++ scanLoop (fun p => strContains content p)
        (mkRedstoneDet content file_path) redstone_patterns

/-! ## First-match-wins characterization of the per-file scan -/

theorem scanLoop_eq_find (hit : String → Bool) (mk : String → OracleDetection)
    (ps : List String) :
    scanLoop hit mk ps = (ps.find? hit).elim [] (fun p => [mk p]) := by
  induction ps with
  | nil => rfl
  | cons p rest ih =>
      by_cases h : hit p <;>
        simp [scanLoop, h, ih, List.find?_cons_of_pos, List.find?_cons_of_neg]

theorem find?_isSome_eq_any (hit : String → Bool) (ps : List String) :
    (ps.find? hit).isSome = ps.any hit := by
  induction ps with
  | nil => rfl
  | cons p rest ih =>
      by_cases h : hit p <;>
        simp [h, ih, List.find?_cons_of_pos, List.find?_cons_of_neg]

theorem filter_scanLoop_of_type (hit : String → Bool)
    (mk : String → OracleDetection) (ps : List String)
    (q : OracleDetection → Bool) (hq : ∀ p, q (mk p) = true) :
    (scanLoop hit mk ps).filter q = scanLoop hit mk ps := by
  induction ps with
  | nil => rfl
  | cons p rest ih =>
      by_cases h : hit p <;> simp [scanLoop, h, ih, hq]

theorem filter_scanLoop_of_ne (hit : String → Bool)
    (mk : String → OracleDetection) (ps : List String)
    (q : OracleDetection → Bool) (hq : ∀ p, q (mk p) = false) :
    (scanLoop hit mk ps).filter q = [] := by
  induction ps with
  | nil => rfl
  | cons p rest ih =>
      by_cases h : hit p <;> simp [scanLoop, h, ih, hq]

theorem scan_filter_pyth (content file_path : String) :
    (scan_rust_content content file_path).filter
        (fun d => d.oracle_type == OracleType.Pyth) =
      (pyth_patterns.find? (fun p => strContains content p)).elim []
        (fun p => [mkPythDet content file_path p]) := by
  simp only [scan_rust_content, List.filter_append]
  rw [filter_scanLoop_of_type _ _ _ _ (fun _ => rfl),
    filter_scanLoop_of_ne _ (mkSwitchboardDet content file_path) _ _ (fun _ => rfl),
    filter_scanLoop_of_ne _ (mkChainlinkDet content file_path) _ _ (fun _ => rfl),
    filter_scanLoop_of_ne _ (mkDiaDet content file_path) _ _ (fun _ => rfl),
    filter_scanLoop_of_ne _ (mkRedstoneDet content file_path) _ _ (fun _ => rfl),
    scanLoop_eq_find]
  simp

theorem scan_filter_switchboard (content file_path : String) :
    (scan_rust_content content file_path).filter
        (fun d => d.oracle_type == OracleType.Switchboard) =
      (switchboard_patterns.find? (fun p => strContains content p)).elim []
        (fun p => [mkSwitchboardDet content file_path p]) := by
  simp only [scan_rust_content, List.filter_append]
  rw [filter_scanLoop_of_ne _ (mkPythDet content file_path) _ _ (fun _ => rfl),
    filter_scanLoop_of_type _ _ _ _ (fun _ => rfl),
    filter_scanLoop_of_ne _ (mkChainlinkDet content file_path) _ _ (fun _ => rfl),
    filter_scanLoop_of_ne _ (mkDiaDet content file_path) _ _ (fun _ => rfl),
    filter_scanLoop_of_ne _ (mkRedstoneDet content file_path) _ _ (fun _ => rfl),
    scanLoop_eq_find]
  simp

theorem scan_filter_chainlink (content file_path : String) :
    (scan_rust_content content file_path).filter
        (fun d => d.oracle_type == OracleType.Chainlink) =
      (chainlink_patterns.find? (fun p => strContains content p)).elim []
        (fun p => [mkChainlinkDet content file_path p]) := by
  simp only [scan_rust_content, List.filter_append]
  rw [filter_scanLoop_of_ne _ (mkPythDet content file_path) _ _ (fun _ => rfl),
    filter_scanLoop_of_ne _ (mkSwitchboardDet content file_path) _ _ (fun _ => rfl),
    filter_scanLoop_of_type _ _ _ _ (fun _ => rfl),
    filter_scanLoop_of_ne _ (mkDiaDet content file_path) _ _ (fun _ => rfl),
    filter_scanLoop_of_ne _ (mkRedstoneDet content file_path) _ _ (fun _ => rfl),
    scanLoop_eq_find]
  simp

theorem scan_filter_dia (content file_path : String) :
    (scan_rust_content content file_path).filter
        (fun d => d.oracle_type == OracleType.DIA) =
      (dia_patterns.find?
          (fun p => strContains (lowerStr content) (lowerStr p))).elim []
        (fun p => [mkDiaDet content file_path p]) := by
  simp only [scan_rust_content, List.filter_append]
  rw [filter_scanLoop_of_ne _ (mkPythDet content file_path) _ _ (fun _ => rfl),
    filter_scanLoop_of_ne _ (mkSwitchboardDet content file_path) _ _ (fun _ => rfl),
    filter_scanLoop_of_ne _ (mkChainlinkDet content file_path) _ _ (fun _ => rfl),
    filter_scanLoop_of_type _ _ _ _ (fun _ => rfl),
    filter_scanLoop_of_ne _ (mkRedstoneDet content file_path) _ _ (fun _ => rfl),
    scanLoop_eq_find]
  simp

theorem scan_filter_redstone (content file_path : String) :
    (scan_rust_content content file_path).filter
        (fun d => d.oracle_type == OracleType.RedStone) =
      (redstone_patterns.find? (fun p => strContains content p)).elim []
        (fun p => [mkRedstoneDet content file_path p]) := by
  simp only [scan_rust_content, List.filter_append]
  rw [filter_scanLoop_of_ne _ (mkPythDet content file_path) _ _ (fun _ => rfl),
    filter_scanLoop_of_ne _ (mkSwitchboardDet content file_path) _ _ (fun _ => rfl),
    filter_scanLoop_of_ne _ (mkChainlinkDet content file_path) _ _ (fun _ => rfl),
    filter_scanLoop_of_ne _ (mkDiaDet content file_path) _ _ (fun _ => rfl),
    filter_scanLoop_of_type _ _ _ _ (fun _ => rfl),
    scanLoop_eq_find]
  simp

theorem scan_filter_apro (content file_path : String) :
    (scan_rust_content content file_path).filter
        (fun d => d.oracle_type == OracleType.APRO) = [] := by
  simp only [scan_rust_content, List.filter_append]
  rw [filter_scanLoop_of_ne _ (mkPythDet content file_path) _ _ (fun _ => rfl),
    filter_scanLoop_of_ne _ (mkSwitchboardDet content file_path) _ _ (fun _ => rfl),
    filter_scanLoop_of_ne _ (mkChainlinkDet content file_path) _ _ (fun _ => rfl),
    filter_scanLoop_of_ne _ (mkDiaDet content file_path) _ _ (fun _ => rfl),
    filter_scanLoop_of_ne _ (mkRedstoneDet content file_path) _ _ (fun _ => rfl)]
  rfl

theorem scan_filter_unknown (content file_path : String) :
    (scan_rust_content content file_path).filter
        (fun d => d.oracle_type == OracleType.Unknown) = [] := by
  simp only [scan_rust_content, List.filter_append]
  rw [filter_scanLoop_of_ne _ (mkPythDet content file_path) _ _ (fun _ => rfl),
    filter_scanLoop_of_ne _ (mkSwitchboardDet content file_path) _ _ (fun _ => rfl),
    filter_scanLoop_of_ne _ (mkChainlinkDet content file_path) _ _ (fun _ => rfl),
    filter_scanLoop_of_ne _ (mkDiaDet content file_path) _ _ (fun _ => rfl),
    filter_scanLoop_of_ne _ (mkRedstoneDet content file_path) _ _ (fun _ => rfl)]
  rfl

theorem length_elim_singleton (o : Option String)
    (mk : String → OracleDetection) :
    (o.elim ([] : List OracleDetection) (fun p => [mk p])).length ≤ 1 := by
  cases o <;> simp

/-- C3 counterexample: the RedStone pattern "redstone" occurs in the file
text "REDSTONE" up to letter case, yet `scan_rust_content` emits no
RedStone detection for it — the RedStone loop, unlike the DIA loop,
matches case-sensitively. -/
theorem redstone_scan_case_sensitive_cex :
    strContains (lowerStr "REDSTONE") (lowerStr "redstone") = true ∧
    (scan_rust_content "REDSTONE" "src/lib.rs").filter
      (fun d => d.oracle_type == OracleType.RedStone) = [] := by decide

/-- C3 amended: a provider's detection fires exactly when one of its
patterns is contained in the file text — case-sensitively for the strong
providers (Pyth, Switchboard, Chainlink) and also for the weak RedStone
provider, while only the weak DIA provider is checked case-insensitively
(both the text and the pattern are lowercased). -/
theorem scan_rust_content_case_sensitivity (content file_path : String) :
    ((scan_rust_content content file_path).filter
        (fun d => d.oracle_type == OracleType.Pyth) ≠ [] ↔
      pyth_patterns.any (fun p => strContains content p) = true) ∧
    ((scan_rust_content content file_path).filter
        (fun d => d.oracle_type == OracleType.Switchboard) ≠ [] ↔
      switchboard_patterns.any (fun p => strContains content p) = true) ∧
    ((scan_rust_content content file_path).filter
        (fun d => d.oracle_type == OracleType.Chainlink) ≠ [] ↔
      chainlink_patterns.any (fun p => strContains content p) = true) ∧
    ((scan_rust_content content file_path).filter
        (fun d => d.oracle_type == OracleType.DIA) ≠ [] ↔
      dia_patterns.any
        (fun p => strContains (lowerStr content) (lowerStr p)) = true) ∧
    ((scan_rust_content content file_path).filter
        (fun d => d.oracle_type == OracleType.RedStone) ≠ [] ↔
      redstone_patterns.any (fun p => strContains content p) = true) := by
  refine ⟨?_, ?_, ?_, ?_, ?_⟩
  · rw [scan_filter_pyth, ← find?_isSome_eq_any]
    cases pyth_patterns.find? (fun p => strContains content p) <;> simp
  · rw [scan_filter_switchboard, ← find?_isSome_eq_any]
    cases switchboard_patterns.find? (fun p => strContains content p) <;> simp
  · rw [scan_filter_chainlink, ← find?_isSome_eq_any]
    cases chainlink_patterns.find? (fun p => strContains content p) <;> simp
  · rw [scan_filter_dia, ← find?_isSome_eq_any]
    cases dia_patterns.find?
      (fun p => strContains (lowerStr content) (lowerStr p)) <;> simp
  · rw [scan_filter_redstone, ← find?_isSome_eq_any]
    cases redstone_patterns.find? (fun p => strContains content p) <;> simp

/-- C5: per file, each provider's ordered pattern list is scanned
first-match-wins: the scan's detections for that provider are exactly one
detection built from the first pattern that matches (its
`pattern_matched`), or none; hence at most one detection per provider per
file, while one file can still yield detections for several providers (the
closing concrete conjunct shows a file hitting both Pyth and Chainlink). -/
theorem scan_rust_content_first_match (content file_path : String) :
    (∀ t : OracleType, ((scan_rust_content content file_path).filter
        (fun d => d.oracle_type == t)).length ≤ 1) ∧
    ((scan_rust_content content file_path).filter
        (fun d => d.oracle_type == OracleType.Pyth) =
      (pyth_patterns.find? (fun p => strContains content p)).elim []
        (fun p => [mkPythDet content file_path p])) ∧
    ((scan_rust_content content file_path).filter
        (fun d => d.oracle_type == OracleType.Switchboard) =
      (switchboard_patterns.find? (fun p => strContains content p)).elim []
        (fun p => [mkSwitchboardDet content file_path p])) ∧
    ((scan_rust_content content file_path).filter
        (fun d => d.oracle_type == OracleType.Chainlink) =
      (chainlink_patterns.find? (fun p => strContains content p)).elim []
        (fun p => [mkChainlinkDet content file_path p])) ∧
    ((scan_rust_content content file_path).filter
        (fun d => d.oracle_type == OracleType.DIA) =
      (dia_patterns.find?
          (fun p => strContains (lowerStr content) (lowerStr p))).elim []
        (fun p => [mkDiaDet content file_path p])) ∧
    ((scan_rust_content content file_path).filter
        (fun d => d.oracle_type == OracleType.RedStone) =
      (redstone_patterns.find? (fun p => strContains content p)).elim []
        (fun p => [mkRedstoneDet content file_path p])) ∧
    ((scan_rust_content
        "use pyth_solana_receiver_sdk;\nuse chainlink_solana as chainlink;"
        "multi.rs").map (fun d => d.oracle_type) =
      [OracleType.Pyth, OracleType.Chainlink]) := by
  refine ⟨?_, scan_filter_pyth content file_path,
    scan_filter_switchboard content file_path,
    scan_filter_chainlink content file_path,
    scan_filter_dia content file_path,
    scan_filter_redstone content file_path, by decide⟩
  intro t
  cases t
  · rw [scan_filter_pyth]; exact length_elim_singleton _ _
  · rw [scan_filter_switchboard]; exact length_elim_singleton _ _
  · rw [scan_filter_chainlink]; exact length_elim_singleton _ _
  · rw [scan_filter_dia]; exact length_elim_singleton _ _
  · rw [scan_filter_redstone]; exact length_elim_singleton _ _
  · rw [scan_filter_apro]; simp
  · rw [scan_filter_unknown]; simp

/-! ## The detection merger (`oracle.rs::merge_detections`) -/

/-- The confidence update of `merge_detections` (lines 443–447): a High
incoming wins outright; a Medium incoming upgrades only a Low existing;
anything else keeps the existing level. -/
def mergeConfidence (existing incoming : ConfidenceLevel) : ConfidenceLevel :=
  if incoming = .High then .High
  else if incoming = .Medium ∧ existing = .Low then .Medium
  else existing

/-- Numeric rank of a confidence level under Low < Medium < High. -/
def confRank : ConfidenceLevel → Nat
  | .Low => 0
  | .Medium => 1
  | .High => 2

/-- The maximum of two confidence levels under Low < Medium < High. -/
def confMax (a b : ConfidenceLevel) : ConfidenceLevel :=
  if confRank a ≤ confRank b then b else a

theorem mergeConfidence_eq_confMax (a b : ConfidenceLevel) :
    mergeConfidence a b = confMax a b := by
  cases a <;> cases b <;> decide

/-- Merging one incoming detection into an existing map entry (lines
439–447): concatenate locations, update the confidence. -/
def combineDet (e d : OracleDetection) : OracleDetection :=
  { e with locations := e.locations ++ d.locations,
           confidence := mergeConfidence e.confidence d.confidence }

/-- The grouping key of a detection: its `Debug`-formatted oracle type. -/
def keyOf (d : OracleDetection) : String := typeKey d.oracle_type

/-- One iteration of the `merge_detections` loop over the keyed map. -/
def mergeStep (m : List (String × OracleDetection)) (d : OracleDetection) :
    List (String × OracleDetection) :=
  match lookupAssoc m (keyOf d) with
  | some _ => modifyAssoc m (keyOf d) (fun e => combineDet e d)
  | none => m ++ [(keyOf d, d)]

/-- `oracle.rs::merge_detections` (lines 433–454): fold the detections
into a map keyed by oracle type, then return the values.  The source's
`HashMap::into_values` order is unspecified; the model returns the values
in first-encounter order, one representative of the admissible orders. -/
def merge_detections (ds : List OracleDetection) : List OracleDetection :=
  (ds.foldl mergeStep []).map Prod.snd

/-! ### Lemmas about the merge fold -/

theorem lookupAssoc_append {α : Type} (l1 l2 : List (String × α)) (k : String) :
    lookupAssoc (l1 ++ l2) k =
      match lookupAssoc l1 k with
      | some v => some v
      | none => lookupAssoc l2 k := by
  induction l1 with
  | nil => rfl
  | cons e rest ih =>
      obtain ⟨a, v⟩ := e
      by_cases h : a = k <;> simp [lookupAssoc, h, ih]

theorem lookupAssoc_eq_none_iff {α : Type} (l : List (String × α)) (k : String) :
    lookupAssoc l k = none ↔ k ∉ l.map Prod.fst := by
  induction l with
  | nil => simp [lookupAssoc]
  | cons e rest ih =>
      obtain ⟨a, v⟩ := e
      by_cases h : a = k
      · subst h
        simp [lookupAssoc]
      · simp only [lookupAssoc, if_neg h, ih, List.map_cons, List.mem_cons]
        constructor
        · intro h1 h2
          rcases h2 with h2 | h2
          · exact h h2.symm
          · exact h1 h2
        · intro h1 h2
          exact h1 (Or.inr h2)

theorem keys_modifyAssoc {α : Type} (l : List (String × α)) (k : String)
    (f : α → α) : (modifyAssoc l k f).map Prod.fst = l.map Prod.fst := by
  induction l with
  | nil => rfl
  | cons e rest ih =>
      obtain ⟨a, v⟩ := e
      by_cases h : a = k <;> simp [modifyAssoc, h, ih]

theorem mem_modifyAssoc {α : Type} (l : List (String × α)) (k : String)
    (f : α → α) (e' : String × α) :
    e' ∈ modifyAssoc l k f → e' ∈ l ∨ ∃ v, (k, v) ∈ l ∧ e' = (k, f v) := by
  induction l with
  | nil => intro h; simp [modifyAssoc] at h
  | cons e rest ih =>
      obtain ⟨a, v⟩ := e
      intro h
      by_cases ha : a = k
      · subst ha
        simp only [modifyAssoc, if_pos rfl, ite_true, List.mem_cons] at h
        rcases h with h | h
        · exact Or.inr ⟨v, List.mem_cons_self _ _, h⟩
        · exact Or.inl (List.mem_cons_of_mem _ h)
      · simp only [modifyAssoc, if_neg ha, ite_false, List.mem_cons] at h
        rcases h with h | h
        · exact Or.inl (by rw [h]; exact List.mem_cons_self _ _)
        · rcases ih h with h' | ⟨w, hw, he⟩
          · exact Or.inl (List.mem_cons_of_mem _ h')
          · exact Or.inr ⟨w, List.mem_cons_of_mem _ hw, he⟩

/-- Well-formedness of the keyed map: keys are distinct and every entry is
keyed by its detection's oracle type. -/
def wfMap (m : List (String × OracleDetection)) : Prop :=
  (m.map Prod.fst).Nodup ∧ ∀ e ∈ m, e.1 = keyOf e.2

theorem keyOf_combineDet (e d : OracleDetection) :
    keyOf (combineDet e d) = keyOf e := rfl

theorem wf_mergeStep (m : List (String × OracleDetection))
    (d : OracleDetection) (h : wfMap m) : wfMap (mergeStep m d) := by
  obtain ⟨hnd, hkeys⟩ := h
  unfold mergeStep
  cases hl : lookupAssoc m (keyOf d) with
  | some e =>
      refine ⟨by rw [keys_modifyAssoc]; exact hnd, ?_⟩
      intro e' he'
      rcases mem_modifyAssoc _ _ _ _ he' with h' | ⟨v, hv, he⟩
      · exact hkeys e' h'
      · subst he
        rw [keyOf_combineDet]
        exact hkeys (keyOf d, v) hv
  | none =>
      constructor
      · rw [List.map_append]
        simp only [List.map_cons, List.map_nil]
        rw [List.nodup_append]
        refine ⟨hnd, List.nodup_singleton _, ?_⟩
        intro a ha hb
        simp only [List.mem_singleton] at hb
        subst hb
        exact ((lookupAssoc_eq_none_iff m (keyOf d)).mp hl) ha
      · intro e' he'
        rcases List.mem_append.mp he' with h' | h'
        · exact hkeys e' h'
        · simp only [List.mem_singleton] at h'
          subst h'
          rfl

theorem lookup_mergeStep (m : List (String × OracleDetection))
    (d : OracleDetection) (k : String) :
    lookupAssoc (mergeStep m d) k =
      if k = keyOf d then
        match lookupAssoc m k with
        | some e => some (combineDet e d)
        | none => some d
      else lookupAssoc m k := by
  unfold mergeStep
  cases hl : lookupAssoc m (keyOf d) with
  | some e =>
      by_cases hk : k = keyOf d
      · subst hk
        rw [if_pos rfl, lookupAssoc_modify_self, hl]
        rfl
      · rw [if_neg hk, lookupAssoc_modify_ne _ _ _ _ hk]
  | none =>
      rw [lookupAssoc_append]
      by_cases hk : k = keyOf d
      · subst hk
        rw [hl, if_pos rfl]
        simp [lookupAssoc]
      · rw [if_neg hk]
        cases hm : lookupAssoc m k with
        | some v => rfl
        | none => simp [lookupAssoc, Ne.symm hk]

/-- The accumulator view of one group: fold the group's detections into an
optional entry, starting it at the first detection seen. -/
def groupAcc (o : Option OracleDetection) (ds : List OracleDetection) :
    Option OracleDetection :=
  ds.foldl (fun acc d =>
    match acc with
    | some e => some (combineDet e d)
    | none => some d) o

theorem lookup_foldl_mergeStep (ds : List OracleDetection)
    (m : List (String × OracleDetection)) (k : String) :
    lookupAssoc (ds.foldl mergeStep m) k =
      groupAcc (lookupAssoc m k) (ds.filter (fun d => keyOf d == k)) := by
  induction ds generalizing m with
  | nil => rfl
  | cons d rest ih =>
      rw [List.foldl_cons, ih, lookup_mergeStep]
      by_cases hk : keyOf d = k
      · rw [if_pos hk.symm]
        have : rest.filter (fun d => keyOf d == k) =
            ((d :: rest).filter (fun d => keyOf d == k)).tail := by
          simp [List.filter_cons, hk]
        simp only [List.filter_cons, show (keyOf d == k) = true by simp [hk]]
        cases lookupAssoc m k <;> rfl
      · rw [if_neg (fun h => hk h.symm)]
        simp [List.filter_cons, hk]

theorem groupAcc_some (e : OracleDetection) (l : List OracleDetection) :
    groupAcc (some e) l = some (l.foldl combineDet e) := by
  induction l generalizing e with
  | nil => rfl
  | cons d rest ih =>
      show groupAcc (some (combineDet e d)) rest = _
      rw [ih, List.foldl_cons]

theorem foldl_combineDet_oracle_type (l : List OracleDetection)
    (e : OracleDetection) :
    (l.foldl combineDet e).oracle_type = e.oracle_type := by
  induction l generalizing e with
  | nil => rfl
  | cons d rest ih => rw [List.foldl_cons, ih]; rfl

theorem foldl_combineDet_suggestion (l : List OracleDetection)
    (e : OracleDetection) :
    (l.foldl combineDet e).migration_suggestion = e.migration_suggestion := by
  induction l generalizing e with
  | nil => rfl
  | cons d rest ih => rw [List.foldl_cons, ih]; rfl

theorem foldl_combineDet_locations (l : List OracleDetection)
    (e : OracleDetection) :
    (l.foldl combineDet e).locations =
      e.locations ++ l.flatMap (fun d => d.locations) := by
  induction l generalizing e with
  | nil => simp
  | cons d rest ih =>
      rw [List.foldl_cons, ih]
      simp [combineDet, List.append_assoc]

theorem foldl_combineDet_confidence (l : List OracleDetection)
    (e : OracleDetection) :
    (l.foldl combineDet e).confidence =
      l.foldl (fun c d => confMax c d.confidence) e.confidence := by
  induction l generalizing e with
  | nil => rfl
  | cons d rest ih =>
      rw [List.foldl_cons, ih, List.foldl_cons]
      congr 1
      exact mergeConfidence_eq_confMax _ _

theorem filter_values_eq_lookup (m : List (String × OracleDetection))
    (k : String) (h : wfMap m) :
    (m.map Prod.snd).filter (fun d => keyOf d == k) =
      (lookupAssoc m k).elim [] (fun e => [e]) := by
  induction m with
  | nil => rfl
  | cons e rest ih =>
      obtain ⟨a, v⟩ := e
      obtain ⟨hnd, hkeys⟩ := h
      have hav : a = keyOf v := hkeys (a, v) (List.mem_cons_self _ _)
      have hrest : wfMap rest :=
        ⟨(List.nodup_cons.mp hnd).2, fun e' he' =>
          hkeys e' (List.mem_cons_of_mem _ he')⟩
      by_cases hk : a = k
      · subst hk
        have hnotin : a ∉ rest.map Prod.fst := (List.nodup_cons.mp hnd).1
        have hrest_nil : (rest.map Prod.snd).filter (fun d => keyOf d == a) = [] := by
          rw [ih hrest, (lookupAssoc_eq_none_iff rest a).mpr hnotin]
          rfl
        simp only [List.map_cons, List.filter_cons,
          show (keyOf v == a) = true by simp [hav.symm], lookupAssoc,
          if_pos rfl, hrest_nil]
        rfl
      · simp only [List.map_cons, List.filter_cons,
          show (keyOf v == k) = false by simp [hav ▸ hk], lookupAssoc,
          if_neg hk]
        exact ih hrest

theorem typeKey_beq (a b : OracleType) : (typeKey a == typeKey b) = (a == b) := by
  cases a <;> cases b <;> decide

theorem wf_foldl_mergeStep (ds : List OracleDetection)
    (m : List (String × OracleDetection)) (h : wfMap m) :
    wfMap (ds.foldl mergeStep m) := by
  induction ds generalizing m with
  | nil => exact h
  | cons d rest ih => exact ih _ (wf_mergeStep _ _ h)

theorem OracleDetection.ext_fields {a b : OracleDetection}
    (h1 : a.oracle_type = b.oracle_type) (h2 : a.confidence = b.confidence)
    (h3 : a.locations = b.locations)
    (h4 : a.migration_suggestion = b.migration_suggestion) : a = b := by
  cases a
  cases b
  simp_all

/-- C4: `merge_detections` keeps exactly one detection per oracle type
present in the input: for a type with no input detections the merged list
has none, and for a type whose input detections (in encounter order) are
`d0 :: rest`, the single merged detection carries `d0`'s type and
suggestion, the concatenation of all locations in encounter order, and the
maximum confidence under Low < Medium < High of all detections in the
group. -/
theorem merge_detections_grouping (ds : List OracleDetection) (t : OracleType) :
    (ds.filter (fun d => d.oracle_type == t) = [] →
      (merge_detections ds).filter (fun d => d.oracle_type == t) = []) ∧
    (∀ d0 rest, ds.filter (fun d => d.oracle_type == t) = d0 :: rest →
      (merge_detections ds).filter (fun d => d.oracle_type == t) =
        [{ oracle_type := d0.oracle_type,
           confidence :=
             rest.foldl (fun c d => confMax c d.confidence) d0.confidence,
           locations := (d0 :: rest).flatMap (fun d => d.locations),
           migration_suggestion := d0.migration_suggestion }]) := by
  have hfilter : ∀ l : List OracleDetection,
      l.filter (fun d => d.oracle_type == t) =
        l.filter (fun d => keyOf d == typeKey t) := by
    intro l
    apply List.filter_congr
    intro d _
    rw [keyOf, typeKey_beq]
  have hmain : (merge_detections ds).filter (fun d => d.oracle_type == t) =
      (groupAcc none (ds.filter (fun d => d.oracle_type == t))).elim []
        (fun e => [e]) := by
    rw [merge_detections,
      hfilter ((ds.foldl mergeStep []).map Prod.snd),
      filter_values_eq_lookup _ _
        (wf_foldl_mergeStep ds [] ⟨List.nodup_nil, by simp⟩),
      lookup_foldl_mergeStep, hfilter ds]
    rfl
  constructor
  · intro h
    rw [hmain, h]
    rfl
  · intro d0 rest h
    rw [hmain, h]
    show (groupAcc (some d0) rest).elim [] (fun e => [e]) = _
    rw [groupAcc_some]
    show [rest.foldl combineDet d0] = _
    congr 1
    exact OracleDetection.ext_fields (foldl_combineDet_oracle_type rest d0)
      (foldl_combineDet_confidence rest d0)
      (by rw [foldl_combineDet_locations]; simp)
      (foldl_combineDet_suggestion rest d0)

/-! ## Report generation (`oracle.rs::generate_recommendations`,
`generate_apro_guide`) -/

/-- The single reassuring recommendation line for a scan with no
detections (oracle.rs line 467). -/
def no_oracle_recommendation : String :=
  "No oracle usage detected. Your project should migrate smoothly to SOON Network."

/-- The confidence marker of a recommendation line (oracle.rs lines
475–479; the characters are the source file's own, mojibake included). -/
def confidence_icon : ConfidenceLevel → String
  | .High => "\uF8FF\u00FC\u00EE\u00A5"
  | .Medium => "\uF8FF\u00FC\u00FC\u00B0"
  | .Low => "\uF8FF\u00FC\u00FC\u00A2"

/-- One location line of the recommendations (oracle.rs lines 485–491). -/
def locationLine (loc : DetectionLocation) : String :=
  match loc.line_number with
  | some n =>
      "   \uF8FF\u00FC\u00EC\u00C5 " ++ loc.file_path ++ ":" ++ toString n ++
        " - " ++ loc.pattern_matched
  | none =>
      "   \uF8FF\u00FC\u00EC\u00C5 " ++ loc.file_path ++ " - " ++
        loc.pattern_matched

/-- `oracle.rs::generate_recommendations` (lines 463–503). -/
def generate_recommendations (detections : List OracleDetection) :
    List String :=
  if detections.isEmpty then [no_oracle_recommendation]
  else
    ["\uF8FF\u00FC\u00EE\u00E7 Oracle usage detected in your project. Consider these migration steps:",
     ""]
    ++ detections.flatMap (fun d =>
        [confidence_icon d.confidence ++ " " ++ typeKey d.oracle_type ++
          " Oracle detected with " ++ lowerStr (confKey d.confidence) ++
          " confidence"]
        ++ d.locations.map locationLine
        ++ ["   \uF8FF\u00FC\u00ED\u00B0 " ++ d.migration_suggestion, ""])
    ++ ["\uF8FF\u00FC\u00EC\u00F6 Next steps:",
        "1. Review the APRO oracle integration guide generated below",
        "2. Update your dependencies to use APRO oracle SDK",
        "3. Replace oracle-specific code with APRO equivalents",
        "4. Test your price feed integrations on SOON devnet"]

/-- The fixed opening of the APRO guide (oracle.rs lines 515–530). -/
def apro_guide_header : String :=
  "# APRO Oracle Integration Guide for SOON Network\n\n" ++
  "## Overview\n" ++
  "APRO has chosen SOON as their first SVM chain to support oracle services. " ++
  "This guide will help you migrate your existing oracle integrations.\n\n" ++
  "## Program IDs\n```\n" ++
  "Devnet:  4Mvy4RKRyJMf4PHavvGUuTj9agoddUZ9atQoFma1tyMY\n" ++
  "Mainnet: 4Mvy4RKRyJMf4PHavvGUuTj9agoddUZ9atQoFma1tyMY\n```\n\n" ++
  "## API Endpoints\n```\n" ++
  "Devnet:  https://live-api-test.apro.com\n" ++
  "Mainnet: https://live-api.apro.com\n```\n\n"

/-- The per-provider migration example of the APRO guide (oracle.rs lines
533–576); providers without an authored example contribute nothing. -/
def exampleBlock (d : OracleDetection) : String :=
  match d.oracle_type with
  | .Pyth =>
      "## Migrating from Pyth\nReplace your Pyth price feed calls:\n```rust\n" ++
      "// Before (Pyth)\nuse pyth_solana_receiver_sdk::PriceUpdateV2;\n" ++
      "let price = price_update.get_price_no_older_than(&clock, max_age)?;\n\n" ++
      "// After (APRO)\nuse oracle_sdk::load_price_feed_from_account_info;\n" ++
      "let price_feed = load_price_feed_from_account_info(&price_account)?;\n" ++
      "let price = price_feed.benchmark_price;\n```\n\n"
  | .Switchboard =>
      "## Migrating from Switchboard\nReplace your Switchboard aggregator calls:\n```rust\n" ++
      "// Before (Switchboard)\nuse switchboard_v2::AggregatorAccountData;\n" ++
      "let result = aggregator.get_result()?;\n\n" ++
      "// After (APRO)\nuse oracle_sdk::load_price_feed_from_account_info;\n" ++
      "let price_feed = load_price_feed_from_account_info(&price_account)?;\n" ++
      "let result = price_feed.benchmark_price;\n```\n\n"
  | .Chainlink =>
      "## Migrating from Chainlink\nReplace your Chainlink price feed calls:\n```rust\n" ++
      "// Before (Chainlink)\nuse chainlink_solana as chainlink;\n" ++
      "let round_data = chainlink::latest_round_data(ctx, &feed_account)?;\n\n" ++
      "// After (APRO)\nuse oracle_sdk::load_price_feed_from_account_info;\n" ++
      "let price_feed = load_price_feed_from_account_info(&price_account)?;\n" ++
      "let price = price_feed.benchmark_price;\n```\n\n"
  | _ => ""

/-- The fixed closing of the APRO guide (oracle.rs lines 578–593). -/
def apro_guide_footer : String :=
  "## Available Price Feeds (Devnet)\n" ++
  "- BTC/USD: 0x0003665949c883f9e0f6f002eac32e00bd59dfe6c34e92a91c37d6a8322d6489\n" ++
  "- ETH/USD: 0x0003555ace6b39aae1b894097d0a9fc17f504c62fea598fa206cc6f5088e6e45\n" ++
  "- SOL/USD: 0x000343ec7f6691d6bf679978bab5c093fa45ee74c0baac6cc75649dc59cc21d3\n" ++
  "- USDT/USD: 0x00039a0c0be4e43cacda1599ac414205651f4a62b614b6be9e5318a182c33eb0\n" ++
  "- USDC/USD: 0x00034b881a0c0fff844177f881a313ff894bfc6093d33b5514e34d7faa41b7ef\n\n" ++
  "## Getting Started\n" ++
  "1. Contact APRO BD team for authorization:\n" ++
  "   - Email: bd@apro.com\n" ++
  "   - Telegram: Head of Business Development\n" ++
  "2. Add APRO oracle SDK to your Cargo.toml\n" ++
  "3. Update your price feed integration code\n" ++
  "4. Test on SOON devnet before mainnet deployment\n\n" ++
  "For detailed integration examples, see the complete APRO documentation.\n"

/-- `oracle.rs::generate_apro_guide` (lines 512–596). -/
def generate_apro_guide (detections : List OracleDetection) : String :=
  apro_guide_header ++ String.join (detections.map exampleBlock) ++
    apro_guide_footer

/-! ## The file system model -/

/-- A flat file system: an association list from absolute path to file
contents, standing for the project directory tree. -/
structure FS where
  files : List (String × String)
deriving Repr

/-- `fs::read_to_string`, as far as the model reaches: the contents at a
path, `none` when the path does not exist. -/
def FS.read (fs : FS) (p : String) : Option String :=
  lookupAssoc fs.files p

/-- `fs::write` / the destination side of `fs::copy`: create or truncate
the file at `p` with contents `c`. -/
def FS.write (fs : FS) (p c : String) : FS :=
  ⟨updateAssoc fs.files p c⟩

/-- `fs::remove_file`. -/
def FS.remove (fs : FS) (p : String) : FS :=
  ⟨fs.files.filter (fun e => !(e.1 == p))⟩

/-- `Path::exists`. -/
def FS.pathExists (fs : FS) (p : String) : Bool :=
  (fs.read p).isSome

/-- `pre` is a prefix of `p`, character for character. -/
def startsWithStr (p pre : String) : Bool :=
  pre.data.isPrefixOf p.data

/-! ## The project scan (`oracle.rs::scan_project` and helpers) -/

/-- The Cargo.toml detection for the Pyth dependency (oracle.rs lines
158–170). -/
def pythCargoDet (content : String) : OracleDetection :=
  { oracle_type := .Pyth, confidence := .High,
    locations := [{ file_path := "Cargo.toml",
                    line_number := find_line_number content "pyth-solana-receiver-sdk",
                    pattern_matched := "pyth-solana-receiver-sdk",
                    context := "Cargo.toml dependency" }],
    migration_suggestion :=
      "Consider migrating to APRO oracle for SOON Network compatibility. APRO provides similar price feed functionality with better performance." }

/-- The Cargo.toml detection for a Switchboard dependency (oracle.rs lines
173–185): the recorded pattern prefers "switchboard-v2" when both
dependency spellings occur. -/
def switchboardCargoDet (content : String) : OracleDetection :=
  let pattern := if strContains content "switchboard-v2" then "switchboard-v2"
    else "switchboard_on_demand"
  { oracle_type := .Switchboard, confidence := .High,
    locations := [{ file_path := "Cargo.toml",
                    line_number := find_line_number content pattern,
                    pattern_matched := pattern,
                    context := "Cargo.toml dependency" }],
    migration_suggestion :=
      "APRO oracle offers customizable data feeds similar to Switchboard with enhanced performance on SOON Network." }

/-- The Cargo.toml detection for the Chainlink dependency (oracle.rs lines
189–201). -/
def chainlinkCargoDet (content : String) : OracleDetection :=
  { oracle_type := .Chainlink, confidence := .High,
    locations := [{ file_path := "Cargo.toml",
                    line_number := find_line_number content "chainlink_solana",
                    pattern_matched := "chainlink_solana",
                    context := "Cargo.toml dependency" }],
    migration_suggestion :=
      "APRO oracle provides reliable price feeds compatible with Chainlink's API patterns for seamless migration." }

/-- `oracle.rs::scan_cargo_toml` (lines 146–204): a missing manifest
yields no detections, not an error. -/
def scan_cargo_toml (path : String) (fs : FS) : List OracleDetection :=
  match fs.read (path ++ "/Cargo.toml") with
  | none => []
  | some content =>
      (if strContains content "pyth-solana-receiver-sdk" then
        [pythCargoDet content] else [])
      ++ (if strContains content "switchboard-v2" ||
            strContains content "switchboard_on_demand" then
        [switchboardCargoDet content] else [])
      ++ (if strContains content "chainlink_solana" then
        [chainlinkCargoDet content] else [])

/-- The directory basenames `walk_directory` prunes (oracle.rs line 397). -/
def skipDirs : List String := ["target", "node_modules", ".git"]

/-- A path under `path` lies inside a pruned directory when one of its
intermediate directory components is a skipped basename. -/
def underSkipped (path p : String) : Bool :=
  ((splitOnChar '/' (p.data.drop (path.data.length + 1))).dropLast).any
    (fun c => skipDirs.contains (String.mk c))

/-- `Path::extension() == Some("rs")`: the file name ends in ".rs" and is
not the bare dot-file ".rs". -/
def isRustFile (p : String) : Bool :=
  let name := (splitOnChar '/' p.data).getLastD []
  ['s', 'r', '.'].isPrefixOf name.reverse && !(name == ['.', 'r', 's'])

/-- The `.rs` files `walk_directory` visits under `path`, in file-system
order (the traversal order of the source is the platform directory order,
unspecified; the model uses the listing order of `fs`). -/
def rsFilesUnder (path : String) (fs : FS) : List (String × String) :=
  fs.files.filter (fun e =>
    startsWithStr e.1 (path ++ "/") && !underSkipped path e.1 &&
      isRustFile e.1)

/-- `oracle.rs::scan_rust_files` (lines 213–229). -/
def scan_rust_files (path : String) (fs : FS) : List OracleDetection :=
  (rsFilesUnder path fs).flatMap (fun e => scan_rust_content e.2 e.1)

/-- `oracle.rs::scan_project` (lines 104–137): manifest scan, source scan,
merge, recommendations, and the guide only when something was detected. -/
def scan_project (path : String) (fs : FS) : OracleReport :=
  let detected := scan_cargo_toml path fs ++ scan_rust_files path fs
  let merged := merge_detections detected
  { detected_oracles := merged,
    migration_recommendations := generate_recommendations merged,
    apro_integration_guide :=
      if !merged.isEmpty then some (generate_apro_guide merged) else none }

/-! ## The migration entry point (`migration.rs`) -/

/-- `cli.rs::Config`. -/
structure Config where
  path : String
  dry_run : Bool
  verbose : Bool
  restore : Bool
  show_guide : Bool
  oracle_only : Bool
deriving Repr

/-- `errors.rs::MigrationError`. -/
inductive MigrationError where
  | BackupFailed : String → MigrationError
  | ReadFailed : String → MigrationError
  | TomlParseError : String → MigrationError
  | WriteFailed : String → MigrationError
  | BackupNotFound : String → MigrationError
  | RestoreFailed : String → MigrationError
  | NotAnAnchorProject : String → MigrationError
  | OracleDetectionFailed : String → MigrationError
deriving DecidableEq, Repr

/-- `migration.rs::MigrationResult`. -/
structure MigrationResult where
  config_updated : Bool
  oracle_report : Option OracleReport
  warnings : List String
  next_steps : List String
deriving Repr

/-- The `Anchor.toml` path of a project directory. -/
def anchorPath (path : String) : String := path ++ "/Anchor.toml"

/-- The backup path: the config path with its extension replaced
(`Anchor.toml` → `Anchor.toml.bak`). -/
def backupPath (path : String) : String := path ++ "/Anchor.toml.bak"

/-- `migration.rs::validate_anchor_project` (lines 286–298). -/
def validate_anchor_project (path : String) (fs : FS) :
    Option MigrationError :=
  if !fs.pathExists (anchorPath path) then some (.NotAnAnchorProject path)
  else if !fs.pathExists (path ++ "/Cargo.toml") then
    some (.NotAnAnchorProject path)
  else none

/-- The oracle warnings `run_migration` pushes (lines 176–187): a general
warning when anything was detected, plus one warning per high-confidence
detection. -/
def oracleWarnings (report : OracleReport) : List String :=
  if report.detected_oracles.isEmpty then []
  else
    "Oracle usage detected in your project. Review the oracle migration recommendations."
    :: ((report.detected_oracles.filter
          (fun d => d.confidence == ConfidenceLevel.High)).map
        (fun d => typeKey d.oracle_type ++
          " oracle detected - migration required for SOON compatibility"))

/-- The fixed next steps `run_migration` fills in (lines 190–193). -/
def migrationNextSteps : List String :=
  ["1. Update your dependencies if using oracles",
   "2. Test your project on SOON devnet",
   "3. Review oracle integration if detected",
   "4. Deploy to SOON Network"]

/-- `migration.rs::run_migration` (lines 74–228) as a transformer of the
file-system state, returning the final state alongside the outcome (on an
error the state already mutated stays mutated, as on disk).  The external
TOML parser and pretty-serializer are parameters: their code lives in the
`toml` crate, not in this repository.  Printing is dropped, except that
the dry-run branch serializes (and can fail) only under `verbose`, as in
the source. -/
def run_migration (parse : String → Except String TomlValue)
    (serialize : TomlValue → Except String String)
    (config : Config) (fs : FS) :
    Except MigrationError MigrationResult × FS :=
  match validate_anchor_project config.path fs with
  | some e => (.error e, fs)
  | none =>
    let oracle_report := scan_project config.path fs
    let result : MigrationResult :=
      { config_updated := false, oracle_report := some oracle_report,
        warnings := [], next_steps := [] }
    if config.oracle_only then (.ok result, fs)
    else
      match fs.read (anchorPath config.path) with
      | none => (.error (.BackupFailed "No such file or directory"), fs)
      | some original =>
        let fs1 := fs.write (backupPath config.path) original
        match fs1.read (anchorPath config.path) with
        | none => (.error (.ReadFailed "No such file or directory"), fs1)
        | some content =>
          match parse content with
          | .error msg => (.error (.TomlParseError msg), fs1)
          | .ok toml_value =>
            let step := migrate_toml toml_value
            let result :=
              { result with warnings := oracleWarnings oracle_report,
                            next_steps := migrationNextSteps }
            if !config.dry_run && step.2 then
              match serialize step.1 with
              | .error msg => (.error (.TomlParseError msg), fs1)
              | .ok toml_string =>
                  (.ok { result with config_updated := true },
                   fs1.write (anchorPath config.path) toml_string)
            else if config.dry_run && config.verbose then
              match serialize step.1 with
              | .error msg => (.error (.TomlParseError msg), fs1)
              | .ok _ => (.ok result, fs1)
            else (.ok result, fs1)

/-- `migration.rs::restore_backup` (lines 255–274): fail when no backup
exists; otherwise copy the backup over the working file and delete the
backup (the source re-checks existence before deleting). -/
def restore_backup (path : String) (fs : FS) :
    Except MigrationError Unit × FS :=
  match fs.read (backupPath path) with
  | none => (.error (.BackupNotFound (backupPath path)), fs)
  | some c =>
      let fs1 := fs.write (anchorPath path) c
      let fs2 := if fs1.pathExists (backupPath path) then
          fs1.remove (backupPath path)
        else fs1
      (.ok (), fs2)

/-! ## File-system lemmas -/

theorem FS.read_write_self (fs : FS) (p c : String) :
    (fs.write p c).read p = some c :=
  lookupAssoc_update_self fs.files p c

theorem FS.read_write_ne (fs : FS) (p c q : String) (h : q ≠ p) :
    (fs.write p c).read q = fs.read q :=
  lookupAssoc_update_ne fs.files p q c h

theorem lookupAssoc_filter_out {α : Type} (l : List (String × α)) (p : String) :
    lookupAssoc (l.filter (fun e => !(e.1 == p))) p = none := by
  induction l with
  | nil => rfl
  | cons e rest ih =>
      obtain ⟨a, v⟩ := e
      by_cases h : a = p <;> simp [List.filter_cons, h, lookupAssoc, ih]

theorem lookupAssoc_filter_ne {α : Type} (l : List (String × α)) (p q : String)
    (h : q ≠ p) :
    lookupAssoc (l.filter (fun e => !(e.1 == p))) q = lookupAssoc l q := by
  induction l with
  | nil => rfl
  | cons e rest ih =>
      obtain ⟨a, v⟩ := e
      by_cases ha : a = p
      · subst ha
        simp [List.filter_cons, lookupAssoc, Ne.symm h, ih]
      · by_cases ha' : a = q <;> simp [List.filter_cons, lookupAssoc, ha, ha', ih, h]

theorem FS.read_remove_self (fs : FS) (p : String) :
    (fs.remove p).read p = none :=
  lookupAssoc_filter_out fs.files p

theorem FS.read_remove_ne (fs : FS) (p q : String) (h : q ≠ p) :
    (fs.remove p).read q = fs.read q :=
  lookupAssoc_filter_ne fs.files p q h

theorem append_length_ne (p a b : String) (h : a.length ≠ b.length) :
    p ++ a ≠ p ++ b := by
  intro he
  have h2 := congrArg String.length he
  rw [String.length_append, String.length_append] at h2
  exact h (Nat.add_left_cancel h2)

theorem anchorPath_ne_backupPath (path : String) :
    anchorPath path ≠ backupPath path :=
  append_length_ne path "/Anchor.toml" "/Anchor.toml.bak" (by decide)

/-! ## Frame and effect claims about `run_migration` and `restore_backup` -/

theorem read_write_backup_anchor (fs : FS) (path c : String) :
    (fs.write (backupPath path) c).read (anchorPath path) =
      fs.read (anchorPath path) :=
  FS.read_write_ne _ _ _ _ (anchorPath_ne_backupPath path)

theorem read_write_anchor_backup (fs : FS) (path c : String) :
    (fs.write (anchorPath path) c).read (backupPath path) =
      fs.read (backupPath path) :=
  FS.read_write_ne _ _ _ _ (Ne.symm (anchorPath_ne_backupPath path))

theorem read_write_backup_self (fs : FS) (path c : String) :
    (fs.write (backupPath path) c).read (backupPath path) = some c :=
  FS.read_write_self _ _ _

theorem read_write_anchor_self (fs : FS) (path c : String) :
    (fs.write (anchorPath path) c).read (anchorPath path) = some c :=
  FS.read_write_self _ _ _

/-- C6: with `dry_run` set, `run_migration` never writes the on-disk
`Anchor.toml`: its contents after the run equal its contents before, and
on success `config_updated` is false. -/
theorem dry_run_preserves_config (parse : String → Except String TomlValue)
    (serialize : TomlValue → Except String String) (config : Config)
    (fs : FS) (h : config.dry_run = true) :
    (run_migration parse serialize config fs).2.read (anchorPath config.path) =
      fs.read (anchorPath config.path) ∧
    (∀ res, (run_migration parse serialize config fs).1 = .ok res →
      res.config_updated = false) := by
  constructor
  · unfold run_migration
    repeat' split
    all_goals first
      | rfl
      | simp_all [read_write_backup_anchor]
    all_goals repeat' split
    all_goals simp_all [read_write_backup_anchor]
  · intro res hres
    unfold run_migration at hres
    repeat' split at hres
    all_goals first
      | (injection hres with h2; subst h2; rfl)
      | injection hres
      | simp_all
    all_goals repeat' split at hres
    all_goals first
      | (injection hres with h2; subst h2; rfl)
      | injection hres

/-- A file system holding a minimal Anchor project with no oracle usage. -/
def projectFS : FS :=
  ⟨[("proj/Anchor.toml", "[provider]\ncluster = \"devnet\"\n"),
    ("proj/Cargo.toml", "[dependencies]\nanchor-lang = \"0.28.0\"\n")]⟩

/-- A stand-in for the external TOML parser. -/
def parseW : String → Except String TomlValue :=
  fun _ => Except.ok sampleDevnetToml

/-- A stand-in for the external TOML serializer. -/
def serializeW : TomlValue → Except String String :=
  fun _ => Except.ok "serialized"

/-- A dry-run configuration for the sample project. -/
def dryConfig : Config :=
  { path := "proj", dry_run := true, verbose := false, restore := false,
    show_guide := false, oracle_only := false }

/-- Witness for C6 on the sample project. -/
theorem dry_run_preserves_config_witness :
    (run_migration parseW serializeW dryConfig projectFS).2.read
        (anchorPath dryConfig.path) =
      projectFS.read (anchorPath dryConfig.path) ∧
    (∀ res, (run_migration parseW serializeW dryConfig projectFS).1 = .ok res →
      res.config_updated = false) :=
  dry_run_preserves_config parseW serializeW dryConfig projectFS rfl

/-- C7: with `oracle_only` set, `run_migration` returns before the config
rewrite: the `Anchor.toml` contents are untouched (the whole file system
is) and on success `config_updated` is false. -/
theorem oracle_only_preserves_config (parse : String → Except String TomlValue)
    (serialize : TomlValue → Except String String) (config : Config)
    (fs : FS) (h : config.oracle_only = true) :
    (run_migration parse serialize config fs).2.read (anchorPath config.path) =
      fs.read (anchorPath config.path) ∧
    (∀ res, (run_migration parse serialize config fs).1 = .ok res →
      res.config_updated = false) := by
  constructor
  · unfold run_migration
    repeat' split
    all_goals rfl
  · intro res hres
    unfold run_migration at hres
    repeat' split at hres
    all_goals first
      | (injection hres with h2; subst h2; rfl)
      | injection hres

/-- An oracle-only configuration for the sample project. -/
def oracleOnlyConfig : Config :=
  { path := "proj", dry_run := false, verbose := false, restore := false,
    show_guide := false, oracle_only := true }

/-- Witness for C7 on the sample project. -/
theorem oracle_only_preserves_config_witness :
    (run_migration parseW serializeW oracleOnlyConfig projectFS).2.read
        (anchorPath oracleOnlyConfig.path) =
      projectFS.read (anchorPath oracleOnlyConfig.path) ∧
    (∀ res,
      (run_migration parseW serializeW oracleOnlyConfig projectFS).1 =
        .ok res → res.config_updated = false) :=
  oracle_only_preserves_config parseW serializeW oracleOnlyConfig projectFS rfl

/-- C10: when `oracle_only` is off and the project validates, the backup
at `Anchor.toml.bak` always holds the original `Anchor.toml` contents
after the run — the copy happens before the config is read or parsed, so
this holds for every parser outcome, under dry-run, and when nothing
changes, overwriting any previous backup; with `oracle_only` on the
function returns first and the file system (so also any backup) is
untouched. -/
theorem backup_created_unconditionally
    (parse : String → Except String TomlValue)
    (serialize : TomlValue → Except String String) (config : Config)
    (fs : FS) :
    (config.oracle_only = false →
      validate_anchor_project config.path fs = none →
      ∀ original, fs.read (anchorPath config.path) = some original →
        (run_migration parse serialize config fs).2.read
          (backupPath config.path) = some original) ∧
    (config.oracle_only = true →
      (run_migration parse serialize config fs).2 = fs) := by
  constructor
  · intro ho hv original hr
    unfold run_migration
    repeat' split
    all_goals
      simp_all [read_write_backup_self, read_write_anchor_backup,
        read_write_backup_anchor]
    all_goals repeat' split
    all_goals
      simp_all [read_write_backup_self, read_write_anchor_backup,
        read_write_backup_anchor]
  · intro ho
    unfold run_migration
    repeat' split
    all_goals rfl

/-- C9: `restore_backup` fails with `BackupNotFound` exactly when there is
no backup at the derived backup path, leaving the file system untouched;
on success it overwrites `Anchor.toml` with the backup contents and
deletes the backup, so a second consecutive restore fails with
`BackupNotFound`. -/
theorem restore_backup_spec (path : String) (fs : FS) :
    (fs.read (backupPath path) = none →
      restore_backup path fs =
        (.error (.BackupNotFound (backupPath path)), fs)) ∧
    (∀ c, fs.read (backupPath path) = some c →
      (restore_backup path fs).1 = .ok () ∧
      (restore_backup path fs).2.read (anchorPath path) = some c ∧
      (restore_backup path fs).2.read (backupPath path) = none ∧
      (restore_backup path (restore_backup path fs).2).1 =
        .error (.BackupNotFound (backupPath path))) := by
  constructor
  · intro h
    unfold restore_backup
    rw [h]
  · intro c h
    have hstep : restore_backup path fs = (.ok (),
        ((fs.write (anchorPath path) c).remove (backupPath path))) := by
      unfold restore_backup
      rw [h]
      simp [FS.pathExists,
        FS.read_write_ne _ _ _ _ (Ne.symm (anchorPath_ne_backupPath path)), h]
    rw [hstep]
    refine ⟨rfl, ?_, ?_, ?_⟩
    · rw [FS.read_remove_ne _ _ _ (anchorPath_ne_backupPath path),
        FS.read_write_self]
    · exact FS.read_remove_self _ _
    · unfold restore_backup
      rw [FS.read_remove_self]

/-- C8: a scan with no detections reports an empty oracle list, no APRO
guide, and exactly the single reassuring recommendation line; whenever at
least one detection exists the guide is generated. -/
theorem scan_project_no_oracles (path : String) (fs : FS) :
    ((scan_project path fs).detected_oracles = [] →
      (scan_project path fs).apro_integration_guide = none ∧
      (scan_project path fs).migration_recommendations =
        [no_oracle_recommendation]) ∧
    ((scan_project path fs).detected_oracles ≠ [] →
      (scan_project path fs).apro_integration_guide =
        some (generate_apro_guide (scan_project path fs).detected_oracles)) := by
  constructor
  · intro h
    simp only [scan_project] at h ⊢
    rw [h]
    exact ⟨rfl, rfl⟩
  · intro h
    simp only [scan_project] at h ⊢
    cases hm : merge_detections
        (scan_cargo_toml path fs ++ scan_rust_files path fs) with
    | nil => exact absurd hm h
    | cons d l => rfl

end SoonMigrate
